import Mathlib

/-!
Formal model of the training-step orchestrators of the
PM25/Semi-Supervised-Regression repository (MeanTeacher, CLSS, RankUp).

Numeric values are modelled as rationals.  Python scalar division and the
numpy clip primitive are given explicit semantics; the EMA controller, the
batch-norm controller, the thresholding (masking) hook and the loss
primitives, whose implementations live outside the modelled algorithm files,
are modelled from the specification's contracts for them.
-/

/-- Python scalar division `a / b`: raises `ZeroDivisionError` when `b = 0`
(modelled as `none`), otherwise yields the exact quotient. -/
def pyDiv (a b : ℚ) : Option ℚ :=
  if b = 0 then none else some (a / b)

/-- Semantics of `np.clip(x, a_min, a_max)` on scalars:
`min a_max (max a_min x)`. -/
def npClip (x lo hi : ℚ) : ℚ :=
  min hi (max lo x)

/-- The warm-up ramp computed in `MeanTeacher.train_step`
(meanteacher.py line 69) and `RankUp.train_step` (rankup.py line 155):
`np.clip(it / (reg_unsup_warm_up * num_train_iter), a_min=0.0, a_max=1.0)`.
The iteration counter `it` is a Python scalar, so a zero denominator raises
`ZeroDivisionError` (modelled as `none`). -/
def unsup_warmup (it reg_unsup_warm_up num_train_iter : ℚ) : Option ℚ :=
  (pyDiv it (reg_unsup_warm_up * num_train_iter)).map (fun r => npClip r 0 1)

/-- Mean of a list of rationals, the `mean` reduction of the loss
primitives (empty lists never occur in the modelled steps). -/
def pyMean (l : List ℚ) : ℚ :=
  l.sum / (l.length : ℚ)

/-- Modelled from the spec: the `mse` mode of the regression consistency
loss primitive (`reg_consistency_loss(a, b, "mse")`, implementation outside
the modelled files) — the mean of elementwise squared differences. -/
def mseLoss (a b : List ℚ) : ℚ :=
  pyMean (List.zipWith (fun x y => (x - y) ^ 2) a b)

/-- Maximum of a row of probabilities, the semantics of
`torch.max(probs, dim=-1)` applied to one sample's probability vector. -/
def rowMax : List ℚ → ℚ
  | [] => 0
  | x :: xs => xs.foldl max x

/-- Modelled from the spec: the fixed-thresholding masking hook
(`FixedThresholdingHook.masking`, implementation outside the modelled
files) — per sample, the confidence is the maximum probability, and the
mask entry is 1 where confidence is at least `p_cutoff`, else 0. -/
def masking (probs : List (List ℚ)) (p_cutoff : ℚ) : List ℚ :=
  probs.map (fun p => if p_cutoff ≤ rowMax p then (1 : ℚ) else 0)

/-- Modelled from the spec: the masked classification consistency loss
(`cls_consistency_loss(logits, targets, "ce", mask)`, implementation
outside the modelled files) — the mean of the per-sample losses multiplied
elementwise by the mask, so masked-out samples contribute 0. -/
def maskedConsistencyLoss (perSample mask : List ℚ) : ℚ :=
  pyMean (List.zipWith (fun x y => x * y) perSample mask)

/-- The mutable model state visible to a train step: the live parameters,
the EMA shadow copy, the EMA controller's backup of the live parameters,
the per-layer batch-norm update-statistics flags, and the batch-norm
controller's backup of those flags. -/
structure ModelState where
  params : List ℚ
  shadow : List ℚ
  emaBackup : Option (List ℚ)
  bnFlags : List Bool
  bnBackup : Option (List Bool)
deriving DecidableEq

/-- Modelled from the spec: `ema.apply_shadow()` (EMA controller,
implementation outside the modelled files) — remembers the live parameters
and swaps the shadow copy in. -/
def applyShadowFn (s : ModelState) : ModelState :=
  { s with emaBackup := some s.params, params := s.shadow }

/-- Modelled from the spec: `ema.restore()` (EMA controller, implementation
outside the modelled files) — swaps the remembered live parameters back in.
An unmatched restore is undefined by the spec; it is modelled as keeping
the current parameters. -/
def restoreFn (s : ModelState) : ModelState :=
  { s with params := s.emaBackup.getD s.params, emaBackup := none }

/-- Modelled from the spec: `bn_controller.freeze_bn(model)` (batch-norm
controller, implementation outside the modelled files) — captures every
normalization layer's update-statistics flag and sets it to false. -/
def freezeBNFn (s : ModelState) : ModelState :=
  { s with bnBackup := some s.bnFlags, bnFlags := s.bnFlags.map (fun _ => false) }

/-- Modelled from the spec: `bn_controller.unfreeze_bn(model)` (batch-norm
controller, implementation outside the modelled files) — restores each
layer's previously captured flag.  An unmatched unfreeze is undefined by
the spec; it is modelled as keeping the current flags. -/
def unfreezeBNFn (s : ModelState) : ModelState :=
  { s with bnFlags := s.bnBackup.getD s.bnFlags, bnBackup := none }

/-- One forward pass as observed by a train step: which input view was fed
and the parameters and batch-norm flags in force when it ran. -/
structure ForwardRecord where
  view : ℕ
  params : List ℚ
  bnFlags : List Bool
deriving DecidableEq

/-- Embedding of `MeanTeacher.train_step` (meanteacher.py lines 39-77).
Views: 0 = `x_lb`, 1 = `x_ulb_w` (teacher pass), 2 = `x_ulb_w_2`.
`fails v` says the forward pass on view `v` raises; on a raise the step
stops there and propagates (loss `none`) with the state as it stands, since
the source has no exception handler.  `modelLogits` abstracts the backbone
(logits as a function of the parameters and the view); `regLoss` abstracts
the out-of-scope supervised regression loss primitive; the consistency loss
is `mse`; `torch.no_grad` and `.detach()` affect only gradients, not
values, and the `kwargs` feature-extraction loop is the empty-`kwargs`
case.  Returns the final state, the forward records in program order, and
the total loss (`none` when the step raised, including the
`ZeroDivisionError` of the warm-up line). -/
def meanteacher_train_step (fails : ℕ → Bool)
    (modelLogits : List ℚ → ℕ → List ℚ)
    (regLoss : List ℚ → List ℚ → ℚ)
    (reg_ulb_loss_wt reg_unsup_warm_up it num_train_iter : ℚ)
    (y_lb : List ℚ) (s0 : ModelState) :
    ModelState × List ForwardRecord × Option ℚ :=
  if fails 0 then (s0, [], none) else
  let r0 : ForwardRecord := ⟨0, s0.params, s0.bnFlags⟩
  let logits_x_lb := modelLogits s0.params 0
  let s1 := applyShadowFn s0
  let s2 := freezeBNFn s1
  if fails 1 then (s2, [r0], none) else
  let r1 : ForwardRecord := ⟨1, s2.params, s2.bnFlags⟩
  let logits_x_ulb_w := modelLogits s2.params 1
  let s3 := unfreezeBNFn s2
  let s4 := restoreFn s3
  let s5 := freezeBNFn s4
  if fails 2 then (s5, [r0, r1], none) else
  let r2 : ForwardRecord := ⟨2, s5.params, s5.bnFlags⟩
  let logits_x_ulb_w_2 := modelLogits s5.params 2
  let s6 := unfreezeBNFn s5
  let sup_loss := regLoss logits_x_lb y_lb
  let unsup_loss := mseLoss logits_x_ulb_w_2 logits_x_ulb_w
  match unsup_warmup it reg_unsup_warm_up num_train_iter with
  | none => (s6, [r0, r1, r2], none)
  | some w => (s6, [r0, r1, r2], some (sup_loss + reg_ulb_loss_wt * unsup_loss * w))

/-- Shared evaluation of the warm-up ramp when the denominator is nonzero. -/
theorem unsup_warmup_eq_some {wf n : ℚ} (it : ℚ) (hne : wf * n ≠ 0) :
    unsup_warmup it wf n = some (npClip (it / (wf * n)) 0 1) := by
  simp [unsup_warmup, pyDiv, hne]

/-- C1: for `it` at least 0, `num_train_iter` positive and the warm-up
fraction positive, the warm-up ramp of the train steps equals
`clip(it / (warm_up_fraction * num_train_iter), 0, 1)`; it is monotonically
non-decreasing in `it`, always lies in the interval from 0 to 1, and equals
exactly 1 whenever `it` is at least `warm_up_fraction * num_train_iter`. -/
theorem C1_warmup_ramp (it wf n : ℚ) (hit : 0 ≤ it) (hwf : 0 < wf) (hn : 0 < n) :
    unsup_warmup it wf n = some (npClip (it / (wf * n)) 0 1) ∧
    (∀ it2 : ℚ, it ≤ it2 →
      (unsup_warmup it wf n).getD 0 ≤ (unsup_warmup it2 wf n).getD 0) ∧
    0 ≤ (unsup_warmup it wf n).getD 0 ∧
    (unsup_warmup it wf n).getD 0 ≤ 1 ∧
    (wf * n ≤ it → unsup_warmup it wf n = some 1) := by
  have hd : 0 < wf * n := mul_pos hwf hn
  have hne : wf * n ≠ 0 := ne_of_gt hd
  have heq := unsup_warmup_eq_some it hne
  refine ⟨heq, ?_, ?_, ?_, ?_⟩
  · intro it2 h12
    rw [heq, unsup_warmup_eq_some it2 hne]
    have hdiv : it / (wf * n) ≤ it2 / (wf * n) := by
      have := mul_le_mul_of_nonneg_right h12 (inv_nonneg.mpr hd.le)
      simpa [div_eq_mul_inv] using this
    simpa [npClip] using min_le_min le_rfl (max_le_max le_rfl hdiv)
  · rw [heq]
    simp only [Option.getD_some, npClip]
    exact le_min (by norm_num) (le_max_left 0 _)
  · rw [heq]
    simp only [Option.getD_some, npClip]
    exact min_le_left 1 _
  · intro hle
    have h1x : 1 ≤ it / (wf * n) := (one_le_div hd).mpr hle
    rw [heq]
    have hmax : max 0 (it / (wf * n)) = it / (wf * n) :=
      max_eq_right (le_trans zero_le_one h1x)
    simp [npClip, hmax, min_eq_left h1x]

/-- Witness for C1 at `it = 3`, `warm_up_fraction = 1/2`,
`num_train_iter = 4`. -/
theorem C1_warmup_ramp_witness :
    (0 : ℚ) ≤ 3 ∧ (0 : ℚ) < 1 / 2 ∧ (0 : ℚ) < 4 ∧
    (unsup_warmup 3 (1 / 2) 4 = some (npClip (3 / (1 / 2 * 4)) 0 1) ∧
     (∀ it2 : ℚ, (3 : ℚ) ≤ it2 →
       (unsup_warmup 3 (1 / 2) 4).getD 0 ≤ (unsup_warmup it2 (1 / 2) 4).getD 0) ∧
     0 ≤ (unsup_warmup 3 (1 / 2) 4).getD 0 ∧
     (unsup_warmup 3 (1 / 2) 4).getD 0 ≤ 1 ∧
     ((1 : ℚ) / 2 * 4 ≤ 3 → unsup_warmup 3 (1 / 2) 4 = some 1)) :=
  ⟨by norm_num, by norm_num, by norm_num,
   C1_warmup_ramp 3 (1 / 2) 4 (by norm_num) (by norm_num) (by norm_num)⟩

/-- C3 counterexample: with `reg_unsup_warm_up = 0`, `num_train_iter =
1024` and `it = 0`, the warm-up line divides by zero (the step raises
`ZeroDivisionError`), so it does not yield 1.0. -/
theorem C3_counterexample :
    unsup_warmup 0 0 1024 = none ∧ unsup_warmup 0 0 1024 ≠ some 1 := by
  constructor <;> simp [unsup_warmup, pyDiv]

/-- C3 amended: when the configured warm-up fraction `reg_unsup_warm_up`
equals 0, evaluating the warm-up ramp at any iteration performs a division
by zero — the train step raises `ZeroDivisionError` and yields no value,
rather than 1.0. -/
theorem C3_warmup_zero_fraction_raises (it n : ℚ) :
    unsup_warmup it 0 n = none := by
  simp [unsup_warmup, pyDiv]

/-- C2 counterexample: a concrete MeanTeacher step whose teacher-pass
forward (view 1) raises after `apply_shadow` and `freeze_bn`: the failure
propagates with the live parameters equal to the shadow `[1]` instead of
the pre-step `[0]`, and with the batch-norm flag `false` instead of its
pre-freeze value `true` — frozen and shadow-applied state survives the
failed step. -/
theorem C2_counterexample :
    (meanteacher_train_step (fun v => v == 1) (fun p _ => p) (fun _ _ => 0)
        1 (2 / 5) 0 10 [0] ⟨[0], [1], none, [true], none⟩).1.params ≠ [0] ∧
    (meanteacher_train_step (fun v => v == 1) (fun p _ => p) (fun _ _ => 0)
        1 (2 / 5) 0 10 [0] ⟨[0], [1], none, [true], none⟩).1.bnFlags ≠ [true] ∧
    (meanteacher_train_step (fun v => v == 1) (fun p _ => p) (fun _ _ => 0)
        1 (2 / 5) 0 10 [0] ⟨[0], [1], none, [true], none⟩).2.2 = none := by
  refine ⟨?_, ?_, ?_⟩ <;> decide

/-- C2 amended: the train steps have no exception handler, so if a forward
pass raises while the EMA shadow is applied and batch-norm is frozen, the
failure propagates with the shadow still applied (parameters equal the
shadow copy) and the flags still frozen (all false, with the pre-freeze
flags left in the controller backup); pre-step state is restored only when
the bracketing operations complete normally. -/
theorem C2_failure_leaks_shadow_and_frozen_bn
    (modelLogits : List ℚ → ℕ → List ℚ) (regLoss : List ℚ → List ℚ → ℚ)
    (wt wf it n : ℚ) (y_lb : List ℚ) (s0 : ModelState) :
    meanteacher_train_step (fun v => v == 1) modelLogits regLoss
        wt wf it n y_lb s0 =
      (⟨s0.shadow, s0.shadow, some s0.params,
        s0.bnFlags.map (fun _ => false), some s0.bnFlags⟩,
       [⟨0, s0.params, s0.bnFlags⟩], none) := by
  simp [meanteacher_train_step, applyShadowFn, freezeBNFn]

/-- C5: in `MeanTeacher.train_step` the teacher pass on the second weak
view runs in the nested order apply_shadow, freeze_bn, forward, unfreeze_bn,
restore: on normal completion the final parameters and batch-norm flags
equal their pre-step values, and the recorded forward passes show the
labeled pass on the live parameters with the original flags, the teacher
pass on the shadow parameters with all flags frozen, and the second-view
pass back on the live parameters. -/
theorem C5_meanteacher_scoped_teacher_pass
    (modelLogits : List ℚ → ℕ → List ℚ) (regLoss : List ℚ → List ℚ → ℚ)
    (wt wf it n : ℚ) (y_lb : List ℚ) (s0 : ModelState)
    (h1 : s0.emaBackup = none) (h2 : s0.bnBackup = none) :
    (meanteacher_train_step (fun _ => false) modelLogits regLoss
        wt wf it n y_lb s0).1 = s0 ∧
    (meanteacher_train_step (fun _ => false) modelLogits regLoss
        wt wf it n y_lb s0).2.1 =
      [⟨0, s0.params, s0.bnFlags⟩,
       ⟨1, s0.shadow, s0.bnFlags.map (fun _ => false)⟩,
       ⟨2, s0.params, s0.bnFlags.map (fun _ => false)⟩] := by
  obtain ⟨p, sh, eb, bf, bb⟩ := s0
  simp only at h1 h2
  subst h1 h2
  rcases hW : unsup_warmup it wf n with _ | w <;>
    simp [meanteacher_train_step, applyShadowFn, freezeBNFn, unfreezeBNFn,
      restoreFn, hW]

/-- Witness for C5 at a concrete clean state. -/
theorem C5_meanteacher_scoped_teacher_pass_witness :
    (⟨[2], [3], none, [true], none⟩ : ModelState).emaBackup = none ∧
    (⟨[2], [3], none, [true], none⟩ : ModelState).bnBackup = none ∧
    ((meanteacher_train_step (fun _ => false) (fun p _ => p) (fun _ _ => 0)
        1 (1 / 2) 0 4 [0] ⟨[2], [3], none, [true], none⟩).1 =
      ⟨[2], [3], none, [true], none⟩ ∧
     (meanteacher_train_step (fun _ => false) (fun p _ => p) (fun _ _ => 0)
        1 (1 / 2) 0 4 [0] ⟨[2], [3], none, [true], none⟩).2.1 =
      [⟨0, [2], [true]⟩, ⟨1, [3], [false]⟩, ⟨2, [2], [false]⟩]) :=
  ⟨rfl, rfl,
   C5_meanteacher_scoped_teacher_pass (fun p _ => p) (fun _ _ => 0)
     1 (1 / 2) 0 4 [0] ⟨[2], [3], none, [true], none⟩ rfl rfl⟩

/-- C6: `MeanTeacher.train_step` returns
`sup_loss + reg_ulb_loss_ratio * unsup_loss * warm_up(it)`, where
`sup_loss` is the regression loss of the labeled logits against `y_lb`
(mean reduction) and `unsup_loss` is the mse consistency loss between the
student's second-weak-view logits (computed on the live parameters) and the
EMA teacher's logits on the first weak view (computed on the shadow
parameters; detaching affects only gradients). -/
theorem C6_meanteacher_total_loss
    (modelLogits : List ℚ → ℕ → List ℚ) (regLoss : List ℚ → List ℚ → ℚ)
    (wt wf it n : ℚ) (y_lb : List ℚ) (s0 : ModelState)
    (hwf : 0 < wf) (hn : 0 < n) :
    (meanteacher_train_step (fun _ => false) modelLogits regLoss
        wt wf it n y_lb s0).2.2 =
      some (regLoss (modelLogits s0.params 0) y_lb +
        wt * mseLoss (modelLogits s0.params 2) (modelLogits s0.shadow 1) *
          npClip (it / (wf * n)) 0 1) := by
  have hne : wf * n ≠ 0 := (mul_pos hwf hn).ne'
  simp [meanteacher_train_step, applyShadowFn, freezeBNFn, unfreezeBNFn,
    restoreFn, unsup_warmup_eq_some it hne]

/-- Witness for C6 at a concrete input. -/
theorem C6_meanteacher_total_loss_witness :
    (0 : ℚ) < 1 / 2 ∧ (0 : ℚ) < 4 ∧
    (meanteacher_train_step (fun _ => false) (fun p _ => p) (fun _ _ => 5)
        2 (1 / 2) 1 4 [0] ⟨[2], [3], none, [true], none⟩).2.2 =
      some (5 + 2 * mseLoss [2] [3] * npClip (1 / (1 / 2 * 4)) 0 1) :=
  ⟨by norm_num, by norm_num,
   C6_meanteacher_total_loss (fun p _ => p) (fun _ _ => 5)
     2 (1 / 2) 1 4 [0] ⟨[2], [3], none, [true], none⟩
     (by norm_num) (by norm_num)⟩

/-- Configuration of `RankUp` (rankup.py `init`, lines 60-68, plus the
base-class regression unsupervised weight used on line 156; the source
names the three weight fields with the suffix ratio). -/
structure RankUpConfig where
  use_rda : Bool
  reg_unsup_warm_up : ℚ
  reg_ulb_loss_wt : ℚ
  cls_ulb_loss_wt : ℚ
  cls_loss_wt : ℚ
  p_cutoff : ℚ
deriving DecidableEq

/-- Per-batch values of `RankUp.train_step` produced by the out-of-scope
primitives: the supervised regression loss on the labeled logits, the
regression logits of the weak unlabeled view, the target the RDA hook
returns for them, the softmax probabilities of the auxiliary ranking head
on the weak view, the supervised classification loss, and the per-sample
cross-entropy of the strong-view ranking logits against the pseudo-labels
(the factor the mask multiplies). -/
structure RankUpData where
  reg_sup_loss : ℚ
  logits_x_ulb_w : List ℚ
  rda_target : List ℚ
  probs_x_ulb_w : List (List ℚ)
  cls_sup_loss : ℚ
  ce_per_sample : List ℚ
deriving DecidableEq

/-- The three scalars `RankUp.train_step` combines and logs
(rankup.py lines 156-158 and 161). -/
structure RankUpTotals where
  total_reg_loss : ℚ
  total_cls_loss : ℚ
  total_loss : ℚ
deriving DecidableEq

/-- Embedding of `RankUp.train_step` (rankup.py lines 101-162).
Views: 0 = `x_lb`, 1 = `x_ulb_w` (batch-norm frozen around it), 2 =
`x_ulb_s`.  `fails v` says the forward pass on view `v` raises, in which
case the step stops there (no exception handler in the source).  The
result is the final model state, the forward records in program order, a
flag recording whether `gen_ulb_targets` was invoked on the RDA hook
(lines 129-137: only when `use_rda` is true), and the three combined loss
scalars (`none` when the step raised, including the `ZeroDivisionError` of
the warm-up line 155 when the denominator is zero). -/
def rankup_train_step (cfg : RankUpConfig) (it num_train_iter : ℚ)
    (d : RankUpData) (fails : ℕ → Bool) (s0 : ModelState) :
    ModelState × List ForwardRecord × Bool × Option RankUpTotals :=
  if fails 0 then (s0, [], false, none) else
  let r0 : ForwardRecord := ⟨0, s0.params, s0.bnFlags⟩
  let s1 := freezeBNFn s0
  if fails 1 then (s1, [r0], false, none) else
  let r1 : ForwardRecord := ⟨1, s1.params, s1.bnFlags⟩
  let s2 := unfreezeBNFn s1
  if fails 2 then (s2, [r0, r1], false, none) else
  let r2 : ForwardRecord := ⟨2, s2.params, s2.bnFlags⟩
  let rdaInvoked := cfg.use_rda
  let reg_unsup_loss : ℚ :=
    if cfg.use_rda then mseLoss d.logits_x_ulb_w d.rda_target else 0
  let mask := masking d.probs_x_ulb_w cfg.p_cutoff
  let cls_unsup_loss := maskedConsistencyLoss d.ce_per_sample mask
  match unsup_warmup it cfg.reg_unsup_warm_up num_train_iter with
  | none => (s2, [r0, r1, r2], rdaInvoked, none)
  | some w =>
    let total_reg_loss := d.reg_sup_loss + cfg.reg_ulb_loss_wt * reg_unsup_loss * w
    let total_cls_loss := d.cls_sup_loss + cfg.cls_ulb_loss_wt * cls_unsup_loss
    (s2, [r0, r1, r2], rdaInvoked,
     some ⟨total_reg_loss, total_cls_loss,
           total_reg_loss + cfg.cls_loss_wt * total_cls_loss⟩)

/-- A lower bound survives a left fold of `max`. -/
theorem le_foldl_max (xs : List ℚ) (a b : ℚ) (h : a ≤ b) :
    a ≤ xs.foldl max b := by
  induction xs generalizing b with
  | nil => exact h
  | cons y ys ih => exact ih (max b y) (le_trans h (le_max_left b y))

/-- The maximum of a row of nonnegative entries is nonnegative. -/
theorem rowMax_nonneg {p : List ℚ} (h : ∀ x ∈ p, 0 ≤ x) : 0 ≤ rowMax p := by
  cases p with
  | nil => simp [rowMax]
  | cons x xs => exact le_foldl_max xs 0 x (h x (by simp))

/-- Elementwise products against an all-zero list sum to zero. -/
theorem zipWith_mul_zero_sum (l l2 : List ℚ) (h : ∀ x ∈ l2, x = 0) :
    (List.zipWith (fun x y => x * y) l l2).sum = 0 := by
  induction l generalizing l2 with
  | nil => simp
  | cons a as ih =>
    cases l2 with
    | nil => simp
    | cons b bs =>
      have hb : b = 0 := h b (by simp)
      have hrest : ∀ x ∈ bs, x = 0 := fun x hx => h x (by simp [hx])
      simp [hb, ih bs hrest]

/-- The masked consistency loss vanishes under an all-zero mask. -/
theorem maskedConsistencyLoss_zero_mask (perSample mask : List ℚ)
    (h : ∀ x ∈ mask, x = 0) : maskedConsistencyLoss perSample mask = 0 := by
  simp [maskedConsistencyLoss, pyMean, zipWith_mul_zero_sum perSample mask h]

/-- With cutoff 1 and every confidence strictly below 1, the mask is all
zeros. -/
theorem masking_one_all_zero {probs : List (List ℚ)}
    (h : ∀ p ∈ probs, rowMax p < 1) :
    masking probs 1 = probs.map (fun _ => 0) := by
  unfold masking
  induction probs with
  | nil => rfl
  | cons p ps ih =>
    have hp : ¬ (1 : ℚ) ≤ rowMax p := not_le.mpr (h p (by simp))
    simp only [List.map_cons, if_neg hp]
    have := ih (fun q hq => h q (by simp [hq]))
    simp_all

/-- With cutoff 1 and every confidence strictly below 1, the masked
consistency loss is zero regardless of the per-sample losses. -/
theorem maskedConsistencyLoss_masking_one (perSample : List ℚ)
    {probs : List (List ℚ)} (h : ∀ p ∈ probs, rowMax p < 1) :
    maskedConsistencyLoss perSample (masking probs 1) = 0 := by
  rw [masking_one_all_zero h]
  exact maskedConsistencyLoss_zero_mask _ _ (by simp)

/-- C4: with `use_rda` false, `RankUp.train_step` never invokes the RDA
hook and the regression unsupervised term contributes exactly 0 to
`total_reg_loss`, which equals the supervised regression loss alone,
whatever the unsupervised weight and the warm-up ramp value. -/
theorem C4_use_rda_false_disables_reg_unsup (cfg : RankUpConfig)
    (it n : ℚ) (d : RankUpData) (fails : ℕ → Bool) (s0 : ModelState)
    (h : cfg.use_rda = false) :
    (rankup_train_step cfg it n d fails s0).2.2.1 = false ∧
    ∀ tot : RankUpTotals,
      (rankup_train_step cfg it n d fails s0).2.2.2 = some tot →
      tot.total_reg_loss = d.reg_sup_loss := by
  constructor
  · cases hf0 : fails 0 <;> cases hf1 : fails 1 <;> cases hf2 : fails 2 <;>
      rcases hW : unsup_warmup it cfg.reg_unsup_warm_up n with _ | w <;>
        simp [rankup_train_step, hf0, hf1, hf2, hW, h]
  · intro tot htot
    cases hf0 : fails 0 <;> cases hf1 : fails 1 <;> cases hf2 : fails 2 <;>
      rcases hW : unsup_warmup it cfg.reg_unsup_warm_up n with _ | w <;>
        simp [rankup_train_step, hf0, hf1, hf2, hW, h] at htot <;>
        simp [← htot]

/-- Witness for C4 at a concrete configuration with `use_rda = false`. -/
theorem C4_use_rda_false_witness :
    (⟨false, 2 / 5, 1, 1, 1, 19 / 20⟩ : RankUpConfig).use_rda = false ∧
    ((rankup_train_step ⟨false, 2 / 5, 1, 1, 1, 19 / 20⟩ 1 10
        ⟨3, [1], [2], [[1 / 2]], 4, [5]⟩ (fun _ => false)
        ⟨[0], [0], none, [true], none⟩).2.2.1 = false ∧
     ∀ tot : RankUpTotals,
       (rankup_train_step ⟨false, 2 / 5, 1, 1, 1, 19 / 20⟩ 1 10
          ⟨3, [1], [2], [[1 / 2]], 4, [5]⟩ (fun _ => false)
          ⟨[0], [0], none, [true], none⟩).2.2.2 = some tot →
       tot.total_reg_loss = 3) :=
  ⟨rfl,
   C4_use_rda_false_disables_reg_unsup ⟨false, 2 / 5, 1, 1, 1, 19 / 20⟩ 1 10
     ⟨3, [1], [2], [[1 / 2]], 4, [5]⟩ (fun _ => false)
     ⟨[0], [0], none, [true], none⟩ rfl⟩

/-- C8: the masking hook returns a binary mask with 1 exactly where the
per-sample confidence (maximum probability) is at least `p_cutoff` and 0
elsewhere; with cutoff 0 and nonnegative probabilities every entry is 1;
with cutoff 1 and every confidence strictly below 1 every entry is 0 and
the masked classification consistency loss is exactly 0 regardless of the
prediction values, so `RankUp.train_step`'s classification total reduces to
its supervised part. -/
theorem C8_masking_binary_and_extremes (probs : List (List ℚ)) (c : ℚ) :
    (∀ m ∈ masking probs c, m = 0 ∨ m = 1) ∧
    (∀ (i : ℕ) (him : i < (masking probs c).length) (hip : i < probs.length),
      ((masking probs c)[i] = 1 ↔ c ≤ rowMax probs[i])) ∧
    ((∀ p ∈ probs, ∀ x ∈ p, 0 ≤ x) →
      masking probs 0 = probs.map (fun _ => 1)) ∧
    ((∀ p ∈ probs, rowMax p < 1) →
      masking probs 1 = probs.map (fun _ => 0) ∧
      ∀ perSample : List ℚ,
        maskedConsistencyLoss perSample (masking probs 1) = 0) ∧
    (∀ (cfg : RankUpConfig) (it n : ℚ) (d : RankUpData) (fails : ℕ → Bool)
      (s0 : ModelState) (tot : RankUpTotals), cfg.p_cutoff = 1 →
      (∀ p ∈ d.probs_x_ulb_w, rowMax p < 1) →
      (rankup_train_step cfg it n d fails s0).2.2.2 = some tot →
      tot.total_cls_loss = d.cls_sup_loss) := by
  refine ⟨?_, ?_, ?_, ?_, ?_⟩
  · intro m hm
    simp only [masking, List.mem_map] at hm
    obtain ⟨p, -, rfl⟩ := hm
    by_cases hc : c ≤ rowMax p <;> simp [hc]
  · intro i him hip
    simp only [masking, List.getElem_map]
    by_cases hc : c ≤ rowMax probs[i] <;> simp [hc]
  · intro h0
    unfold masking
    induction probs with
    | nil => rfl
    | cons p ps ih =>
      have hp : (0 : ℚ) ≤ rowMax p := rowMax_nonneg (h0 p (by simp))
      simp only [List.map_cons, if_pos hp]
      have := ih (fun q hq x hx => h0 q (by simp [hq]) x hx)
      simp_all
  · intro h1
    exact ⟨masking_one_all_zero h1,
      fun perSample => maskedConsistencyLoss_masking_one perSample h1⟩
  · intro cfg it n d fails s0 tot hc hlt htot
    cases hf0 : fails 0 <;> cases hf1 : fails 1 <;> cases hf2 : fails 2 <;>
      rcases hW : unsup_warmup it cfg.reg_unsup_warm_up n with _ | w <;>
        simp [rankup_train_step, hf0, hf1, hf2, hW, hc,
          maskedConsistencyLoss_masking_one d.ce_per_sample hlt] at htot <;>
        simp [← htot]

/-- Witness for C8 on a concrete batch of two samples. -/
theorem C8_masking_witness :
    masking [[(1 : ℚ) / 2], [(3 : ℚ) / 4, (1 : ℚ) / 4]] 0 = [1, 1] ∧
    masking [[(1 : ℚ) / 2], [(3 : ℚ) / 4, (1 : ℚ) / 4]] 1 = [0, 0] ∧
    maskedConsistencyLoss [5, 7]
      (masking [[(1 : ℚ) / 2], [(3 : ℚ) / 4, (1 : ℚ) / 4]] 1) = 0 := by
  obtain ⟨-, -, h0, -, -⟩ :=
    C8_masking_binary_and_extremes [[(1 : ℚ) / 2], [(3 : ℚ) / 4, (1 : ℚ) / 4]] 0
  obtain ⟨-, -, -, h1, -⟩ :=
    C8_masking_binary_and_extremes [[(1 : ℚ) / 2], [(3 : ℚ) / 4, (1 : ℚ) / 4]] 1
  have hnn : ∀ p ∈ [[(1 : ℚ) / 2], [(3 : ℚ) / 4, (1 : ℚ) / 4]], ∀ x ∈ p, 0 ≤ x := by
    intro p hp x hx
    fin_cases hp <;> fin_cases hx <;> norm_num
  have hlt : ∀ p ∈ [[(1 : ℚ) / 2], [(3 : ℚ) / 4, (1 : ℚ) / 4]], rowMax p < 1 := by
    intro p hp
    fin_cases hp <;>
      simp [rowMax, List.foldl_cons, List.foldl_nil, max_lt_iff] <;> norm_num
  refine ⟨?_, ?_, ?_⟩
  · simpa using h0 hnn
  · simpa using (h1 hlt).1
  · exact (h1 hlt).2 [5, 7]

/-- C9: in `RankUp.train_step` the warm-up ramp multiplies only the
regression unsupervised term: `total_cls_loss` equals
`cls_sup_loss + cls_ulb_loss_ratio * cls_unsup_loss` with no warm-up
factor, `total_loss` equals `total_reg_loss + cls_loss_ratio *
total_cls_loss`, and the classification total is independent of the
current iteration. -/
theorem C9_cls_total_no_warmup (cfg : RankUpConfig) (it it2 n : ℚ)
    (d : RankUpData) (fails : ℕ → Bool) (s0 : ModelState) :
    (∀ tot : RankUpTotals,
      (rankup_train_step cfg it n d fails s0).2.2.2 = some tot →
      tot.total_cls_loss = d.cls_sup_loss + cfg.cls_ulb_loss_wt *
        maskedConsistencyLoss d.ce_per_sample
          (masking d.probs_x_ulb_w cfg.p_cutoff) ∧
      tot.total_loss = tot.total_reg_loss +
        cfg.cls_loss_wt * tot.total_cls_loss) ∧
    (rankup_train_step cfg it n d fails s0).2.2.2.map
        RankUpTotals.total_cls_loss =
      (rankup_train_step cfg it2 n d fails s0).2.2.2.map
        RankUpTotals.total_cls_loss := by
  constructor
  · intro tot htot
    cases hf0 : fails 0 <;> cases hf1 : fails 1 <;> cases hf2 : fails 2 <;>
      rcases hW : unsup_warmup it cfg.reg_unsup_warm_up n with _ | w <;>
        simp [rankup_train_step, hf0, hf1, hf2, hW] at htot <;>
        simp [← htot]
  · by_cases hz : cfg.reg_unsup_warm_up * n = 0
    · have hW1 : unsup_warmup it cfg.reg_unsup_warm_up n = none := by
        simp [unsup_warmup, pyDiv, hz]
      have hW2 : unsup_warmup it2 cfg.reg_unsup_warm_up n = none := by
        simp [unsup_warmup, pyDiv, hz]
      cases hf0 : fails 0 <;> cases hf1 : fails 1 <;> cases hf2 : fails 2 <;>
        simp [rankup_train_step, hf0, hf1, hf2, hW1, hW2]
    · have hW1 := unsup_warmup_eq_some it hz
      have hW2 := unsup_warmup_eq_some it2 hz
      cases hf0 : fails 0 <;> cases hf1 : fails 1 <;> cases hf2 : fails 2 <;>
        simp [rankup_train_step, hf0, hf1, hf2, hW1, hW2]

/-- Witness for C9 at a concrete batch and two different iterations. -/
theorem C9_cls_total_no_warmup_witness :
    (∀ tot : RankUpTotals,
      (rankup_train_step ⟨true, 2 / 5, 1, 1, 1, 19 / 20⟩ 1 10
          ⟨3, [1], [2], [[1 / 2]], 4, [5]⟩ (fun _ => false)
          ⟨[0], [0], none, [true], none⟩).2.2.2 = some tot →
      tot.total_cls_loss = 4 + 1 *
        maskedConsistencyLoss [5] (masking [[1 / 2]] (19 / 20)) ∧
      tot.total_loss = tot.total_reg_loss + 1 * tot.total_cls_loss) ∧
    (rankup_train_step ⟨true, 2 / 5, 1, 1, 1, 19 / 20⟩ 1 10
        ⟨3, [1], [2], [[1 / 2]], 4, [5]⟩ (fun _ => false)
        ⟨[0], [0], none, [true], none⟩).2.2.2.map
        RankUpTotals.total_cls_loss =
      (rankup_train_step ⟨true, 2 / 5, 1, 1, 1, 19 / 20⟩ 7 10
        ⟨3, [1], [2], [[1 / 2]], 4, [5]⟩ (fun _ => false)
        ⟨[0], [0], none, [true], none⟩).2.2.2.map
        RankUpTotals.total_cls_loss :=
  C9_cls_total_no_warmup ⟨true, 2 / 5, 1, 1, 1, 19 / 20⟩ 1 7 10
    ⟨3, [1], [2], [[1 / 2]], 4, [5]⟩ (fun _ => false)
    ⟨[0], [0], none, [true], none⟩

/-- Configuration of `CLSS` (clss.py `reg_init`, lines 39-49; the source
names the three weight fields with the suffix ratio). -/
structure CLSSConfig where
  reg_lambda_val : ℚ
  reg_lb_ctr_loss_wt : ℚ
  reg_ulb_ctr_loss_wt : ℚ
  reg_ulb_rank_loss_wt : ℚ
deriving DecidableEq

/-- Per-batch values of `CLSS.train_step` produced by the out-of-scope
loss primitives: the supervised regression loss on the labeled logits, the
ordinal entropy of the labeled features, and the two unsupervised terms
returned by `ulb_rank(feats_x_ulb_w, reg_lambda_val)` and
`ulb_rank_prdlb(logits_x_ulb_w, reg_lambda_val, ft_rank)` on the weak
unlabeled view. -/
structure CLSSData where
  sup_reg_loss : ℚ
  sup_ctr_loss : ℚ
  unsup_ctr_loss : ℚ
  unsup_rank_loss : ℚ
deriving DecidableEq

/-- Embedding of `CLSS.train_step` (clss.py lines 51-82).  Views: 0 =
`x_lb`, 1 = `x_ulb_w`; both forward passes run on the live model with no
EMA or batch-norm controller call, so the state is threaded through
unchanged.  `fails v` says the forward pass on view `v` raises, stopping
the step there.  The step has no warm-up ramp; the iteration counter and
total iteration count are available to it but unused. -/
def clss_train_step (cfg : CLSSConfig) (it num_train_iter : ℚ)
    (d : CLSSData) (fails : ℕ → Bool) (s0 : ModelState) :
    ModelState × List ForwardRecord × Option ℚ :=
  if fails 0 then (s0, [], none) else
  let r0 : ForwardRecord := ⟨0, s0.params, s0.bnFlags⟩
  if fails 1 then (s0, [r0], none) else
  let r1 : ForwardRecord := ⟨1, s0.params, s0.bnFlags⟩
  let sup_loss := d.sup_reg_loss + cfg.reg_lb_ctr_loss_wt * d.sup_ctr_loss
  let unsup_loss := cfg.reg_ulb_ctr_loss_wt * d.unsup_ctr_loss +
    cfg.reg_ulb_rank_loss_wt * d.unsup_rank_loss
  (s0, [r0, r1], some (sup_loss + unsup_loss))

/-- C7: `CLSS.train_step` returns the regression loss on the labeled
batch plus `reg_lb_ctr_loss_ratio` times the ordinal entropy plus
`reg_ulb_ctr_loss_ratio` times the unsupervised contrastive term plus
`reg_ulb_rank_loss_ratio` times the unsupervised rank term — exactly the
three configured weights, and no warm-up factor: the result does not
depend on the iteration counters. -/
theorem C7_clss_total_loss (cfg : CLSSConfig) (it n it2 n2 : ℚ)
    (d : CLSSData) (s0 : ModelState) :
    (clss_train_step cfg it n d (fun _ => false) s0).2.2 =
      some (d.sup_reg_loss + cfg.reg_lb_ctr_loss_wt * d.sup_ctr_loss +
        cfg.reg_ulb_ctr_loss_wt * d.unsup_ctr_loss +
        cfg.reg_ulb_rank_loss_wt * d.unsup_rank_loss) ∧
    clss_train_step cfg it n d (fun _ => false) s0 =
      clss_train_step cfg it2 n2 d (fun _ => false) s0 := by
  constructor
  · simp only [clss_train_step, if_neg (by simp : ¬ false = true)]
    rw [Option.some_inj]
    ring
  · rfl

/-- C10: `CLSS.train_step` never touches the EMA controller or the
batch-norm controller: whatever the batch and wherever a forward pass may
raise, the model state (parameters, shadow, backups and batch-norm flags)
leaves the step exactly as it entered, and every forward pass it performs
runs on the live parameters with the untouched flags. -/
theorem C10_clss_state_invariant (cfg : CLSSConfig) (it n : ℚ)
    (d : CLSSData) (fails : ℕ → Bool) (s0 : ModelState) :
    (clss_train_step cfg it n d fails s0).1 = s0 ∧
    ∀ r ∈ (clss_train_step cfg it n d fails s0).2.1,
      r.params = s0.params ∧ r.bnFlags = s0.bnFlags := by
  cases hf0 : fails 0 <;> cases hf1 : fails 1 <;>
    simp [clss_train_step, hf0, hf1]

/-- Witness for C10 at a concrete state and batch. -/
theorem C10_clss_state_invariant_witness :
    (clss_train_step ⟨2, 1, 1 / 20, 1 / 100⟩ 0 10 ⟨1, 2, 3, 4⟩
        (fun _ => false) ⟨[5], [6], none, [true], none⟩).1 =
      ⟨[5], [6], none, [true], none⟩ ∧
    ∀ r ∈ (clss_train_step ⟨2, 1, 1 / 20, 1 / 100⟩ 0 10 ⟨1, 2, 3, 4⟩
        (fun _ => false) ⟨[5], [6], none, [true], none⟩).2.1,
      r.params = [5] ∧ r.bnFlags = [true] :=
  C10_clss_state_invariant ⟨2, 1, 1 / 20, 1 / 100⟩ 0 10 ⟨1, 2, 3, 4⟩
    (fun _ => false) ⟨[5], [6], none, [true], none⟩
